import Mathlib

/-!
Verification of the Signal Aggregation, Risk, and Position-Lifecycle Engine
of the PolymarketBTC15mAssistant repository.

JavaScript numbers are modelled as exact rationals (ℚ); all the arithmetic
the verified properties depend on (sums, products, comparisons against
configured thresholds) is exact at the scales involved.  `Math.max` and
`Math.min` become `max` and `min` on ℚ, and `Math.round` becomes `⌊x + 1/2⌋` (JavaScript
rounds halves toward +∞, which is what floor of x + 1/2 computes for every
real x).  Fallible operations return `Except String` carrying the source's
error strings; absent optional JS fields are modelled with `Option`.
-/

namespace PM15

/-- Model of JavaScript `Math.round`: rounds to the nearest integer, halves
toward positive infinity. -/
def jsRound (x : ℚ) : ℤ := ⌊x + 1/2⌋

/-- Model of `Math.round(x * 100) / 100` used to round currency to cents. -/
def roundCents (x : ℚ) : ℚ := (jsRound (x * 100) : ℚ) / 100

/-- Side of a binary up/down market bet; the source uses the strings
`'UP'` and `'DOWN'`. -/
inductive Side where
  | UP
  | DOWN
  deriving Repr, DecidableEq

/-- Streak type tracked by the engine stats; the source uses the strings
`'win'` and `'lose'` (or `null`). -/
inductive StreakType where
  | win
  | lose
  deriving Repr, DecidableEq

/-- An open paper-trading position, as created by
`PaperTradingEngine.openPosition` (src/paperTrading/engine.js).
`scaledOutPercent` is absent on a fresh position in the source and is always
read through `(position.scaledOutPercent || 0)`, so we model absence as 0. -/
structure Position where
  tradeId : Nat
  strategyName : String
  side : Side
  entryPrice : ℚ
  size : ℚ
  confidence : ℚ
  marketId : String
  marketSlug : String
  remainingMinutes : ℚ
  openTime : ℚ
  scaledOutPercent : ℚ := 0
  status : String := "OPEN"
  deriving Repr, DecidableEq

/-- A full-close record appended to `closedTrades` by `closePosition` or
`closePositionEarly`.  The source spreads the position fields into one flat
object and overrides `status` with `'CLOSED'`; here the original position is
kept whole in `position` and the record-level `status` is the overriding
value.  `outcome` is set only by resolution closes and `exitReason` only by
early closes. -/
structure ClosedTrade where
  position : Position
  outcome : Option Side
  exitPrice : ℚ
  closeTime : ℚ
  pnl : ℚ
  won : Bool
  holdTime : ℚ
  exitReason : Option String
  status : String := "CLOSED"
  deriving Repr, DecidableEq

/-- A partial-close record appended to `closedTrades` by `scaleOutPosition`
(status `'PARTIAL_CLOSE'` in the source). -/
structure ScaleRecord where
  tradeId : Nat
  strategyName : String
  side : Side
  entryPrice : ℚ
  exitPrice : ℚ
  closedSize : ℚ
  remainingSize : ℚ
  pnl : ℚ
  won : Bool
  timestamp : ℚ
  reason : String
  status : String := "PARTIAL_CLOSE"
  deriving Repr, DecidableEq

/-- Entry of the engine's `closedTrades` list: either a full close or a
scale-out record. -/
inductive ClosedEntry where
  | full (t : ClosedTrade)
  | scaleRec (s : ScaleRecord)
  deriving Repr, DecidableEq

/-- The `pnl` field of a closed-trades entry. -/
def ClosedEntry.pnl : ClosedEntry → ℚ
  | .full t => t.pnl
  | .scaleRec s => s.pnl

/-- Sum of the `pnl` fields of a closed-trades list. -/
def sumPnl (l : List ClosedEntry) : ℚ := (l.map ClosedEntry.pnl).sum

/-- Per-strategy bucket of `stats.byStrategy`. -/
structure StratStats where
  wins : Nat
  losses : Nat
  totalPnL : ℚ
  trades : List ClosedTrade
  deriving Repr, DecidableEq

/-- Fresh `byStrategy` bucket (`{ wins: 0, losses: 0, totalPnL: 0, trades: [] }`). -/
def StratStats.empty : StratStats := ⟨0, 0, 0, []⟩

/-- The engine's `stats` object.  `currentStreak` is an integer because the
source compares it against 0 with `<` in `calculateBetSize`. -/
structure Stats where
  totalTrades : Nat
  wins : Nat
  losses : Nat
  totalPnL : ℚ
  maxDrawdown : ℚ
  peakBalance : ℚ
  winStreak : ℤ
  loseStreak : ℤ
  currentStreak : ℤ
  lastStreakType : Option StreakType
  byStrategy : List (String × StratStats)
  deriving Repr, DecidableEq

/-- Look up a strategy bucket in `byStrategy`. -/
def Stats.findStrategy (s : Stats) (name : String) : Option StratStats :=
  (s.byStrategy.find? (fun kv => kv.1 == name)).map Prod.snd

/-- Update (or insert) a strategy bucket in `byStrategy`, mirroring the
source pattern of creating the bucket if absent and then mutating it. -/
def Stats.updateStrategy (s : Stats) (name : String) (f : StratStats → StratStats) : Stats :=
  match s.byStrategy.find? (fun kv => kv.1 == name) with
  | none => { s with byStrategy := s.byStrategy ++ [(name, f StratStats.empty)] }
  | some _ =>
      { s with byStrategy :=
          s.byStrategy.map (fun kv => if kv.1 == name then (kv.1, f kv.2) else kv) }

/-- The paper-trading engine state (`PaperTradingEngine` fields). -/
structure Engine where
  initialBalance : ℚ
  balance : ℚ
  positions : List Position
  closedTrades : List ClosedEntry
  tradeIdCounter : Nat
  minRiskPercent : ℚ
  maxRiskPercent : ℚ
  maxPositionPercent : ℚ
  maxTotalExposure : ℚ
  stats : Stats
  deriving Repr, DecidableEq

/-- Fresh stats object as built by the `PaperTradingEngine` constructor. -/
def Stats.init (initialBalance : ℚ) : Stats :=
  { totalTrades := 0, wins := 0, losses := 0, totalPnL := 0, maxDrawdown := 0
    peakBalance := initialBalance, winStreak := 0, loseStreak := 0
    currentStreak := 0, lastStreakType := none, byStrategy := [] }

/-- The `PaperTradingEngine` constructor.  The source defaults (applied for
absent options via `||`) are `initialBalance 500, minRiskPercent 0.02,
maxRiskPercent 0.05, maxPositionPercent 0.15, maxTotalExposure 0.50`; here
the resolved option values are taken as parameters. -/
def mkEngine (initialBalance minRiskPercent maxRiskPercent maxPositionPercent maxTotalExposure : ℚ) : Engine :=
  { initialBalance := initialBalance
    balance := initialBalance
    positions := []
    closedTrades := []
    tradeIdCounter := 0
    minRiskPercent := minRiskPercent
    maxRiskPercent := maxRiskPercent
    maxPositionPercent := maxPositionPercent
    maxTotalExposure := maxTotalExposure
    stats := Stats.init initialBalance }

/-- Total size of the open positions (`positions.reduce((sum, p) => sum + p.size, 0)`). -/
def totalExposure (positions : List Position) : ℚ := (positions.map Position.size).sum

/-- Result of `getAccountState`. -/
structure AccountState where
  balance : ℚ
  availableBalance : ℚ
  totalExposure : ℚ
  exposurePercent : ℚ
  openPositions : Nat
  initialBalance : ℚ
  totalPnL : ℚ
  returnPercent : ℚ
  deriving Repr, DecidableEq

/-- Model of `PaperTradingEngine.getAccountState`. -/
def Engine.getAccountState (e : Engine) : AccountState :=
  let exposure := totalExposure e.positions
  { balance := e.balance
    availableBalance := e.balance - exposure
    totalExposure := exposure
    exposurePercent := exposure / e.balance * 100
    openPositions := e.positions.length
    initialBalance := e.initialBalance
    totalPnL := e.balance - e.initialBalance
    returnPercent := (e.balance - e.initialBalance) / e.initialBalance * 100 }

/-- Result of `calculateBetSize`. -/
structure BetSizeResult where
  betSize : ℚ
  riskPercent : ℚ
  confidenceNormalized : ℚ
  performanceMultiplier : ℚ
  drawdownMultiplier : ℚ
  deriving Repr, DecidableEq

/-- Model of `PaperTradingEngine.calculateBetSize(confidence, strategyName)`. -/
def Engine.calculateBetSize (e : Engine) (confidence : ℚ) (strategyName : String) : BetSizeResult :=
  let account := e.getAccountState
  let confidenceNormalized := max 0 (min 1 ((confidence - 1/2) * 2))
  let baseRiskPercent :=
    e.minRiskPercent + (e.maxRiskPercent - e.minRiskPercent) * confidenceNormalized
  let strategyStats := (e.stats.findStrategy strategyName).getD StratStats.empty
  let strategyTrades := strategyStats.wins + strategyStats.losses
  let performanceMultiplier : ℚ :=
    if strategyTrades ≥ 5 then
      let winRate : ℚ := (strategyStats.wins : ℚ) / (strategyTrades : ℚ)
      max (1/2) (min (3/2) (1/2 + (winRate - 3/10) * (5/2)))
    else 1
  let drawdownMultiplier : ℚ :=
    if e.stats.currentStreak < 0 ∧ e.stats.lastStreakType = some StreakType.lose then
      max (1/2) (1 - (|e.stats.currentStreak| : ℚ) * (1/10))
    else 1
  let adjustedRiskPercent := baseRiskPercent * performanceMultiplier * drawdownMultiplier
  let betSize0 := e.balance * adjustedRiskPercent
  let betSize1 := min betSize0 (e.balance * e.maxPositionPercent)
  let currentExposure := totalExposure e.positions
  let maxNewExposure := e.balance * e.maxTotalExposure - currentExposure
  let betSize2 := min betSize1 maxNewExposure
  let betSize3 := min betSize2 account.availableBalance
  let betSize4 := max betSize3 1
  { betSize := roundCents betSize4
    riskPercent := adjustedRiskPercent * 100
    confidenceNormalized := confidenceNormalized
    performanceMultiplier := performanceMultiplier
    drawdownMultiplier := drawdownMultiplier }

/-- Model of `PaperTradingEngine.calculateEntryPrice(marketPrice, side, confidence,
remainingMinutes)`.  Both branches of the source compute the same value. -/
def Engine.calculateEntryPrice (marketPrice : ℚ) (_side : Side) (confidence remainingMinutes : ℚ) : ℚ :=
  let baseSpread : ℚ := 1/100
  let confidenceAdjustment := (confidence - 1/2) * (2/100)
  let timeAdjustment := max 0 ((15 - remainingMinutes) / 15) * (1/100)
  let totalAdjustment := baseSpread + confidenceAdjustment + timeAdjustment
  min (99/100) (marketPrice + totalAdjustment)

/-- Parameters of `openPosition`. -/
structure OpenParams where
  strategyName : String
  side : Side
  entryPrice : ℚ
  size : ℚ
  confidence : ℚ
  marketId : String
  marketSlug : String
  remainingMinutes : ℚ
  timestamp : ℚ
  deriving Repr, DecidableEq

/-- Successful result of `openPosition`. -/
structure OpenOk where
  tradeId : Nat
  position : Position
  deriving Repr, DecidableEq

/-- Model of `PaperTradingEngine.openPosition(params)`. -/
def Engine.openPosition (e : Engine) (params : OpenParams) : Engine × Except String OpenOk :=
  if params.size > e.getAccountState.availableBalance then
    (e, .error "Insufficient balance")
  else if params.size ≤ 0 then
    (e, .error "Invalid size")
  else
    let tradeId := e.tradeIdCounter + 1
    let position : Position :=
      { tradeId := tradeId
        strategyName := params.strategyName
        side := params.side
        entryPrice := params.entryPrice
        size := params.size
        confidence := params.confidence
        marketId := params.marketId
        marketSlug := params.marketSlug
        remainingMinutes := params.remainingMinutes
        openTime := params.timestamp
        scaledOutPercent := 0 }
    ({ e with tradeIdCounter := tradeId, positions := e.positions ++ [position] },
      .ok { tradeId := tradeId, position := position })

/-- Successful result of `closePosition` and `closePositionEarly`. -/
structure CloseOk where
  trade : ClosedTrade
  pnl : ℚ
  won : Bool
  newBalance : ℚ
  deriving Repr, DecidableEq

/-- Peak-balance and max-drawdown tracking block shared verbatim by
`closePosition`, `closePositionEarly` and `scaleOutPosition`. -/
def Stats.trackDrawdown (s : Stats) (balance : ℚ) : Stats :=
  let peakBalance := if balance > s.peakBalance then balance else s.peakBalance
  let currentDrawdown := (peakBalance - balance) / peakBalance
  let maxDrawdown := if currentDrawdown > s.maxDrawdown then currentDrawdown else s.maxDrawdown
  { s with peakBalance := peakBalance, maxDrawdown := maxDrawdown }

/-- Trade-count, total-P/L and win/lose streak update block shared verbatim
by `closePosition` and `closePositionEarly`. -/
def Stats.applyCloseStats (s : Stats) (pnl : ℚ) (won : Bool) : Stats :=
  let s1 := { s with totalTrades := s.totalTrades + 1, totalPnL := s.totalPnL + pnl }
  if won then
    let currentStreak :=
      if s1.lastStreakType = some StreakType.win then s1.currentStreak + 1 else 1
    { s1 with
        wins := s1.wins + 1
        currentStreak := currentStreak
        lastStreakType := some StreakType.win
        winStreak := if currentStreak > s1.winStreak then currentStreak else s1.winStreak }
  else
    let currentStreak :=
      if s1.lastStreakType = some StreakType.lose then s1.currentStreak + 1 else 1
    { s1 with
        losses := s1.losses + 1
        currentStreak := currentStreak
        lastStreakType := some StreakType.lose
        loseStreak := if currentStreak > s1.loseStreak then currentStreak else s1.loseStreak }

/-- Per-strategy stats update on a full close (create bucket if absent, then
bump wins or losses, add the pnl and push the closed trade). -/
def Stats.recordStrategyClose (s : Stats) (name : String) (closedTrade : ClosedTrade) : Stats :=
  s.updateStrategy name (fun st =>
    { st with
        wins := if closedTrade.won then st.wins + 1 else st.wins
        losses := if closedTrade.won then st.losses else st.losses + 1
        totalPnL := st.totalPnL + closedTrade.pnl
        trades := st.trades ++ [closedTrade] })

/-- Model of `PaperTradingEngine.closePosition(tradeId, outcome, exitPrice, timestamp)`:
close at market resolution.  A winning position pays
`size * (1/entryPrice - 1)`; a losing one loses the whole stake. -/
def Engine.closePosition (e : Engine) (tradeId : Nat) (outcome : Side) (exitPrice timestamp : ℚ) :
    Engine × Except String CloseOk :=
  match e.positions.find? (fun p => p.tradeId == tradeId) with
  | none => (e, .error "Position not found")
  | some position =>
    let won := (position.side == Side.UP && outcome == Side.UP) ||
               (position.side == Side.DOWN && outcome == Side.DOWN)
    let pnl := if won then position.size * ((1 / position.entryPrice) - 1) else -position.size
    let balance := e.balance + pnl
    let closedTrade : ClosedTrade :=
      { position := position, outcome := some outcome, exitPrice := exitPrice
        closeTime := timestamp, pnl := pnl, won := won
        holdTime := timestamp - position.openTime, exitReason := none }
    let stats := ((e.stats.trackDrawdown balance).applyCloseStats pnl won).recordStrategyClose
      position.strategyName closedTrade
    ({ e with
        balance := balance
        stats := stats
        closedTrades := e.closedTrades ++ [ClosedEntry.full closedTrade]
        positions := e.positions.eraseP (fun p => p.tradeId == tradeId) },
      .ok { trade := closedTrade, pnl := pnl, won := won, newBalance := balance })

/-- Sequential closing loop of `closeAllForMarket`: the source first filters
the market's positions, then calls `closePosition` on each in order. -/
def Engine.closeMany (e : Engine) (ps : List Position) (outcome : Side) (exitPrice timestamp : ℚ) :
    Engine × List (Except String CloseOk) :=
  match ps with
  | [] => (e, [])
  | p :: rest =>
    let step := e.closePosition p.tradeId outcome exitPrice timestamp
    let next := step.1.closeMany rest outcome exitPrice timestamp
    (next.1, step.2 :: next.2)

/-- Model of `PaperTradingEngine.closeAllForMarket(marketId, outcome, exitPrice, timestamp)`. -/
def Engine.closeAllForMarket (e : Engine) (marketId : String) (outcome : Side) (exitPrice timestamp : ℚ) :
    Engine × List (Except String CloseOk) :=
  e.closeMany (e.positions.filter (fun p => p.marketId == marketId)) outcome exitPrice timestamp

/-- Model of `PaperTradingEngine.closePositionEarly(tradeId, currentSharePrice, reason,
timestamp)`: sell the shares back at the current share price before
resolution; `pnl = (currentSharePrice - entryPrice) * (size / entryPrice)`. -/
def Engine.closePositionEarly (e : Engine) (tradeId : Nat) (currentSharePrice : ℚ)
    (reason : String) (timestamp : ℚ) : Engine × Except String CloseOk :=
  match e.positions.find? (fun p => p.tradeId == tradeId) with
  | none => (e, .error "Position not found")
  | some position =>
    let shares := position.size / position.entryPrice
    let pnl := (currentSharePrice - position.entryPrice) * shares
    let won := decide (pnl > 0)
    let balance := e.balance + pnl
    let closedTrade : ClosedTrade :=
      { position := position, outcome := none, exitPrice := currentSharePrice
        closeTime := timestamp, pnl := pnl, won := won
        holdTime := timestamp - position.openTime, exitReason := some reason }
    let stats := ((e.stats.trackDrawdown balance).applyCloseStats pnl won).recordStrategyClose
      position.strategyName closedTrade
    ({ e with
        balance := balance
        stats := stats
        closedTrades := e.closedTrades ++ [ClosedEntry.full closedTrade]
        positions := e.positions.eraseP (fun p => p.tradeId == tradeId) },
      .ok { trade := closedTrade, pnl := pnl, won := won, newBalance := balance })

/-- Successful result of `scaleOutPosition`. -/
structure ScaleOk where
  pnl : ℚ
  won : Bool
  closedSize : ℚ
  remainingSize : ℚ
  newBalance : ℚ
  deriving Repr, DecidableEq

/-- Model of `PaperTradingEngine.scaleOutPosition(tradeId, percentage, currentSharePrice,
reason, timestamp)`: close `percentage` of the position at the current share
price, leave the rest open.  The source mutates the found position object in
place; since trade ids are issued by a strictly increasing counter they are
unique, and the in-place mutation is modelled as a map over the list updating
the matching id.  Note the cumulative `scaledOutPercent` is not clamped and
the position is never removed here, whatever the cumulative total. -/
def Engine.scaleOutPosition (e : Engine) (tradeId : Nat) (percentage currentSharePrice : ℚ)
    (reason : String) (timestamp : ℚ) : Engine × Except String ScaleOk :=
  match e.positions.find? (fun p => p.tradeId == tradeId) with
  | none => (e, .error "Position not found")
  | some position =>
    if percentage ≤ 0 ∨ percentage > 1 then
      (e, .error "Invalid percentage (must be 0-1)")
    else
      let closeSize := position.size * percentage
      let remainingSize := position.size - closeSize
      let closedShares := closeSize / position.entryPrice
      let pnl := (currentSharePrice - position.entryPrice) * closedShares
      let won := decide (pnl > 0)
      let balance := e.balance + pnl
      let stats1 := e.stats.trackDrawdown balance
      let stats2 := { stats1 with totalPnL := stats1.totalPnL + pnl }
      let stats3 := stats2.updateStrategy position.strategyName
        (fun st => { st with totalPnL := st.totalPnL + pnl })
      let scaleRecord : ScaleRecord :=
        { tradeId := tradeId, strategyName := position.strategyName, side := position.side
          entryPrice := position.entryPrice, exitPrice := currentSharePrice
          closedSize := closeSize, remainingSize := remainingSize, pnl := pnl, won := won
          timestamp := timestamp, reason := reason }
      ({ e with
          balance := balance
          stats := stats3
          positions := e.positions.map (fun p =>
            if p.tradeId == tradeId then
              { p with size := remainingSize,
                       scaledOutPercent := p.scaledOutPercent + percentage }
            else p)
          closedTrades := e.closedTrades ++ [ClosedEntry.scaleRec scaleRecord] },
        .ok { pnl := pnl, won := won, closedSize := closeSize
              remainingSize := remainingSize, newBalance := balance })

/-- One ledger operation, for reasoning about arbitrary operation sequences. -/
inductive EngineOp where
  | openPos (params : OpenParams)
  | closePos (tradeId : Nat) (outcome : Side) (exitPrice timestamp : ℚ)
  | closeAll (marketId : String) (outcome : Side) (exitPrice timestamp : ℚ)
  | closeEarly (tradeId : Nat) (currentSharePrice : ℚ) (reason : String) (timestamp : ℚ)
  | scaleOut (tradeId : Nat) (percentage currentSharePrice : ℚ) (reason : String) (timestamp : ℚ)
  deriving Repr

/-- State part of applying one ledger operation. -/
def Engine.applyOp (e : Engine) : EngineOp → Engine
  | .openPos params => (e.openPosition params).1
  | .closePos tradeId outcome exitPrice ts => (e.closePosition tradeId outcome exitPrice ts).1
  | .closeAll marketId outcome exitPrice ts => (e.closeAllForMarket marketId outcome exitPrice ts).1
  | .closeEarly tradeId price reason ts => (e.closePositionEarly tradeId price reason ts).1
  | .scaleOut tradeId percentage price reason ts =>
      (e.scaleOutPosition tradeId percentage price reason ts).1

/-- Apply a sequence of ledger operations. -/
def Engine.runOps (e : Engine) (ops : List EngineOp) : Engine :=
  ops.foldl Engine.applyOp e

/-! ### All-day trader configuration (src/allDayTrader/config.js)

Values of `ALL_DAY_CONFIG` (the revision that defines `risk.maxBetSize`,
which `RiskManager.adjustPositionSize` reads). -/

namespace Config

/-- Model of `ALL_DAY_CONFIG.signals.minStrategiesToTrade`. -/
def minStrategiesToTrade : Nat := 1

/-- Model of `ALL_DAY_CONFIG.signals.conflictThreshold`. -/
def conflictThreshold : ℚ := 4/10

/-- Model of `ALL_DAY_CONFIG.signals.minConfidence`. -/
def minConfidence : ℚ := 55/100

/-- Model of `ALL_DAY_CONFIG.signals.agreementBonus`. -/
def agreementBonus : ℚ := 2/100

/-- Model of `ALL_DAY_CONFIG.signals.maxConfidence`. -/
def maxConfidence : ℚ := 90/100

/-- Model of `ALL_DAY_CONFIG.risk.dailyLossLimit`. -/
def dailyLossLimit : ℚ := 10/100

/-- Model of `ALL_DAY_CONFIG.risk.maxDailyTrades`. -/
def maxDailyTrades : Nat := 100

/-- Model of `ALL_DAY_CONFIG.risk.maxSinglePosition`. -/
def maxSinglePosition : ℚ := 15/100

/-- Model of `ALL_DAY_CONFIG.risk.maxTotalExposure`. -/
def maxTotalExposure : ℚ := 50/100

/-- Model of `ALL_DAY_CONFIG.risk.minBetSize`. -/
def minBetSize : ℚ := 5

/-- Model of `ALL_DAY_CONFIG.risk.maxBetSize`. -/
def maxBetSize : ℚ := 50

/-- Model of `ALL_DAY_CONFIG.risk.correlationPenalty`. -/
def correlationPenalty : ℚ := 20/100

/-- One entry of `ALL_DAY_CONFIG.risk.drawdownScaling.thresholds`. -/
structure DrawdownThreshold where
  drawdown : ℚ
  sizeMultiplier : ℚ
  deriving Repr, DecidableEq

/-- Model of `ALL_DAY_CONFIG.risk.drawdownScaling.enabled`. -/
def drawdownScalingEnabled : Bool := true

/-- Model of `ALL_DAY_CONFIG.risk.drawdownScaling.thresholds` in source order. -/
def drawdownThresholds : List DrawdownThreshold :=
  [⟨5/100, 80/100⟩, ⟨8/100, 50/100⟩, ⟨10/100, 0⟩]

/-- Model of `ALL_DAY_CONFIG.risk.consecutiveLossLimit`. -/
def consecutiveLossLimit : Nat := 5

/-- Model of `ALL_DAY_CONFIG.risk.cooldownAfterHalt` (30 minutes in milliseconds). -/
def cooldownAfterHalt : ℚ := 30 * 60 * 1000

/-- Model of `ALL_DAY_CONFIG.performance.windowSize`. -/
def windowSize : Nat := 20

/-- Model of `ALL_DAY_CONFIG.performance.minTradesForWeighting`. -/
def minTradesForWeighting : Nat := 5

/-- Model of `ALL_DAY_CONFIG.performance.defaultWeight`. -/
def defaultWeight : ℚ := 1

/-- Model of `ALL_DAY_CONFIG.performance.weightRange` lower bound. -/
def minWeight : ℚ := 5/10

/-- Model of `ALL_DAY_CONFIG.performance.weightRange` upper bound. -/
def maxWeight : ℚ := 15/10

end Config

/-! ### PerformanceTracker (src/allDayTrader/performanceTracker.js) -/

namespace PerformanceTracker

/-- One entry of a strategy's rolling trade window. -/
structure TradeRec where
  won : Bool
  pnl : ℚ
  regime : Option String
  timestamp : ℚ
  deriving Repr, DecidableEq

/-- Per-strategy history (`strategyHistory[name]`): the bounded rolling
window plus lifetime totals. -/
structure History where
  trades : List TradeRec
  totalTrades : Nat
  wins : Nat
  losses : Nat
  totalPnL : ℚ
  deriving Repr, DecidableEq

/-- Model of `PerformanceTracker.getWinRate(strategyName)` on one strategy's history:
neutral 0.5 with no data, else the win fraction of the last `windowSize`
trades (`trades.slice(-size)`). -/
def getWinRate (h : Option History) : ℚ :=
  match h with
  | none => 1/2
  | some history =>
    if history.trades.length = 0 then 1/2
    else
      let recentTrades := history.trades.drop (history.trades.length - Config.windowSize)
      let wins := (recentTrades.filter (fun t => t.won)).length
      (wins : ℚ) / (recentTrades.length : ℚ)

/-- Model of `PerformanceTracker.getStrategyWeight(strategyName)` on one strategy's
history: `defaultWeight` below the sample threshold, else the rolling win
rate mapped linearly and clamped to `weightRange`. -/
def getStrategyWeight (h : Option History) : ℚ :=
  match h with
  | none => Config.defaultWeight
  | some history =>
    if history.trades.length < Config.minTradesForWeighting then Config.defaultWeight
    else
      let winRate := getWinRate (some history)
      let adjustment := (winRate - 1/2) * 2
      let weight := Config.defaultWeight + adjustment * (1/2)
      max Config.minWeight (min Config.maxWeight weight)

end PerformanceTracker

/-! ### SignalAggregator (src/allDayTrader/signalAggregator.js) -/

namespace Aggregator

/-- Live per-strategy record of `SignalAggregator.livePerformance`. -/
structure LivePerf where
  trades : Nat
  wins : Nat
  losses : Nat
  pnl : ℚ
  deriving Repr, DecidableEq

/-- Aggregator state relevant to weighting: the live performance map and the
optional `performanceTracker` (its per-strategy histories). -/
structure AggState where
  livePerformance : List (String × LivePerf)
  performanceTracker : Option (List (String × PerformanceTracker.History))
  deriving Repr, DecidableEq

/-- Find a strategy's live record. -/
def AggState.livePerfOf (a : AggState) (name : String) : Option LivePerf :=
  (a.livePerformance.find? (fun kv => kv.1 == name)).map Prod.snd

/-- Model of `SignalAggregator.getStrategyWeight(strategyName)`: with fewer than two
live trades, delegate to the performance tracker (or the default weight);
otherwise map the live win rate through a step table reaching 2.0 at an 80%
win rate and 0.1 below 30%. -/
def AggState.getStrategyWeight (a : AggState) (name : String) : ℚ :=
  match a.livePerfOf name with
  | none =>
    match a.performanceTracker with
    | some tracker =>
        PerformanceTracker.getStrategyWeight
          ((tracker.find? (fun kv => kv.1 == name)).map Prod.snd)
    | none => Config.defaultWeight
  | some perf =>
    if perf.trades < 2 then
      match a.performanceTracker with
      | some tracker =>
          PerformanceTracker.getStrategyWeight
            ((tracker.find? (fun kv => kv.1 == name)).map Prod.snd)
      | none => Config.defaultWeight
    else
      let winRate := (perf.wins : ℚ) / (perf.trades : ℚ)
      if winRate ≥ 80/100 then 2
      else if winRate ≥ 70/100 then 175/100
      else if winRate ≥ 60/100 then 15/10
      else if winRate ≥ 50/100 then 1
      else if winRate ≥ 40/100 then 5/10
      else if winRate ≥ 30/100 then 25/100
      else 1/10

/-- A collected signal as pushed by `collectSignals`. -/
structure Signal where
  strategyName : String
  side : Side
  confidence : ℚ
  weight : ℚ
  liveWinRate : ℚ
  regimeBoost : ℚ
  deriving Repr, DecidableEq

/-- Weighted mass on the UP side: `upSignals.reduce((sum, s) => sum + s.confidence * s.weight, 0)`. -/
def upMass (signals : List Signal) : ℚ :=
  ((signals.filter (fun s => s.side == Side.UP)).map (fun s => s.confidence * s.weight)).sum

/-- Weighted mass on the DOWN side. -/
def downMass (signals : List Signal) : ℚ :=
  ((signals.filter (fun s => s.side == Side.DOWN)).map (fun s => s.confidence * s.weight)).sum

/-- Result of `detectConflicts`.  In the source the zero-mass early return
omits `upCount` and `downCount`; they are reported here in both branches but
nothing reachable reads them in the zero-mass case. -/
structure Conflict where
  conflictLevel : ℚ
  upRatio : ℚ
  downRatio : ℚ
  upCount : Nat
  downCount : Nat
  deriving Repr, DecidableEq

/-- Model of `SignalAggregator.detectConflicts(signals)`. -/
def detectConflicts (signals : List Signal) : Conflict :=
  let upCount := (signals.filter (fun s => s.side == Side.UP)).length
  let downCount := (signals.filter (fun s => s.side == Side.DOWN)).length
  let upWeight := upMass signals
  let downWeight := downMass signals
  let totalWeight := upWeight + downWeight
  if totalWeight = 0 then
    { conflictLevel := 0, upRatio := 1/2, downRatio := 1/2
      upCount := upCount, downCount := downCount }
  else
    let upRatio := upWeight / totalWeight
    let downRatio := downWeight / totalWeight
    { conflictLevel := min upRatio downRatio * 2, upRatio := upRatio, downRatio := downRatio
      upCount := upCount, downCount := downCount }

/-- Signal strength classification (`calculateStrength` return strings). -/
inductive Strength where
  | STRONG
  | GOOD
  | WEAK
  | INSUFFICIENT
  deriving Repr, DecidableEq

/-- Model of `SignalAggregator.calculateStrength(confidence, agreementCount)`. -/
def calculateStrength (confidence : ℚ) (agreementCount : Nat) : Strength :=
  if confidence ≥ 75/100 ∧ agreementCount ≥ 3 then .STRONG
  else if confidence ≥ 65/100 ∧ agreementCount ≥ 2 then .GOOD
  else if confidence ≥ 55/100 then .WEAK
  else .INSUFFICIENT

/-- Action of an aggregated decision. -/
inductive Action where
  | ENTER
  | NO_TRADE
  deriving Repr, DecidableEq

/-- The aggregated decision (fields absent on some source branches are
`Option`s). -/
structure Decision where
  action : Action
  reason : Option String
  side : Option Side
  confidence : Option ℚ
  strength : Option Strength
  agreementCount : Option Nat
  totalSignals : Option Nat
  conflictLevel : Option ℚ
  regime : String
  deriving Repr, DecidableEq

/-- Model of `SignalAggregator.aggregate(strategies, analysisData, regime)` from the
point where the signal list has been collected (the source first computes
`signals = collectSignals(strategies, analysisData, regime)`, which queries
the strategy objects; `aggregateSignals` is everything after that). -/
def aggregateSignals (signals : List Signal) (regime : String) : Decision :=
  if signals.length = 0 then
    { action := .NO_TRADE, reason := some "no_signals", side := none, confidence := none
      strength := none, agreementCount := none, totalSignals := none
      conflictLevel := none, regime := regime }
  else if signals.length < Config.minStrategiesToTrade then
    { action := .NO_TRADE, reason := some "insufficient_signals", side := none
      confidence := none, strength := none, agreementCount := none
      totalSignals := some signals.length, conflictLevel := none, regime := regime }
  else
    let conflict := detectConflicts signals
    if conflict.conflictLevel > Config.conflictThreshold then
      { action := .NO_TRADE, reason := some "strategy_conflict", side := none
        confidence := none, strength := none, agreementCount := none
        totalSignals := some signals.length
        conflictLevel := some conflict.conflictLevel, regime := regime }
    else
      let side := if conflict.upRatio > conflict.downRatio then Side.UP else Side.DOWN
      let dominantSignals := signals.filter (fun s => s.side == side)
      let totalWeight := (dominantSignals.map Signal.weight).sum
      let weightedConfidence :=
        ((dominantSignals.map (fun s => s.confidence * s.weight)).sum) / totalWeight
      let agreementBonus :=
        min (10/100) (((dominantSignals.length : ℚ) - 1) * Config.agreementBonus)
      let conflictPenalty := conflict.conflictLevel * (1/2)
      let finalConfidence :=
        max Config.minConfidence
          (min Config.maxConfidence (weightedConfidence + agreementBonus - conflictPenalty))
      { action := .ENTER, reason := none, side := some side
        confidence := some finalConfidence
        strength := some (calculateStrength finalConfidence dominantSignals.length)
        agreementCount := some dominantSignals.length
        totalSignals := some signals.length
        conflictLevel := some conflict.conflictLevel, regime := regime }

end Aggregator

/-! ### SessionState (src/allDayTrader/sessionState.js)

The source stores `haltReason` as a formatted message string and tests it
with `haltReason?.includes('Consecutive')`.  The reasons are modelled as an
inductive type carrying the interpolated value; `includesConsecutive` mirrors
the substring test on the corresponding template strings: only the
`Consecutive loss limit reached: N losses` template contains `Consecutive`
(the interpolated numbers cannot create that substring in the other
templates), and an `EMERGENCY: msg` string contains it exactly when the
caller-supplied `msg` does. -/

namespace Session

/-- Substring test `s.includes('Consecutive')` (a string splits into more
than one piece on a pattern exactly when the pattern occurs in it). -/
def containsConsecutive (s : String) : Bool :=
  (s.splitOn "Consecutive").length > 1

/-- Halt reason messages produced by `checkHaltConditions` and
`triggerEmergencyStop`. -/
inductive HaltReason where
  | dailyLossLimit (pct : ℚ)
  | consecutiveLossLimit (n : Nat)
  | maxDailyTrades (n : Nat)
  | maxDrawdownReached (pct : ℚ)
  | emergency (msg : String)
  deriving Repr, DecidableEq

/-- Whether the stored reason string passes `includes('Consecutive')`. -/
def HaltReason.includesConsecutive : HaltReason → Bool
  | .consecutiveLossLimit _ => true
  | .emergency msg => containsConsecutive msg
  | _ => false

/-- Model of `SessionState` fields mutated by the modelled operations.  Timestamps
(`sessionStart`, `haltTime`) are rational millisecond clocks; the derived
`sessionDate` display string and the `marketsTraded` and current-market
bookkeeping are presentation state not touched by any modelled operation. -/
structure SessionState where
  initialBalance : ℚ
  sessionStart : ℚ
  balance : ℚ
  peakBalance : ℚ
  dailyPnL : ℚ
  realizedPnL : ℚ
  unrealizedPnL : ℚ
  maxDrawdown : ℚ
  currentDrawdown : ℚ
  tradesExecuted : Nat
  tradesWon : Nat
  tradesLost : Nat
  consecutiveLosses : Nat
  consecutiveWins : Nat
  tradingHalted : Bool
  haltReason : Option HaltReason
  haltTime : Option ℚ
  strategyStats : List (String × Aggregator.LivePerf)
  deriving Repr, DecidableEq

/-- Model of `SessionState.reset()` (also the constructor body), at clock `now`. -/
def SessionState.reset (s : SessionState) (now : ℚ) : SessionState :=
  { initialBalance := s.initialBalance
    sessionStart := now
    balance := s.initialBalance
    peakBalance := s.initialBalance
    dailyPnL := 0, realizedPnL := 0, unrealizedPnL := 0
    maxDrawdown := 0, currentDrawdown := 0
    tradesExecuted := 0, tradesWon := 0, tradesLost := 0
    consecutiveLosses := 0, consecutiveWins := 0
    tradingHalted := false, haltReason := none, haltTime := none
    strategyStats := [] }

/-- Model of `SessionState.updateBalance(pnl)`. -/
def SessionState.updateBalance (s : SessionState) (pnl : ℚ) : SessionState :=
  let balance := s.balance + pnl
  let peakBalance := if balance > s.peakBalance then balance else s.peakBalance
  let currentDrawdown := (peakBalance - balance) / peakBalance
  { s with
      balance := balance
      dailyPnL := s.dailyPnL + pnl
      realizedPnL := s.realizedPnL + pnl
      peakBalance := peakBalance
      currentDrawdown := currentDrawdown
      maxDrawdown := if currentDrawdown > s.maxDrawdown then currentDrawdown else s.maxDrawdown }

/-- Model of `SessionState.halt(reason)` at clock `now` (`haltTime = Date.now()`). -/
def SessionState.halt (s : SessionState) (reason : HaltReason) (now : ℚ) : SessionState :=
  { s with tradingHalted := true, haltReason := some reason, haltTime := some now }

/-- Model of `SessionState.checkHaltConditions()` at clock `now`: the four circuit
breakers checked in source order (daily loss, consecutive losses, max daily
trades, max drawdown at the ladder entry whose multiplier is zero). -/
def SessionState.checkHaltConditions (s : SessionState) (now : ℚ) : SessionState :=
  let dailyLossPercent := -s.dailyPnL / s.initialBalance
  if dailyLossPercent ≥ Config.dailyLossLimit then
    s.halt (.dailyLossLimit dailyLossPercent) now
  else if s.consecutiveLosses ≥ Config.consecutiveLossLimit then
    s.halt (.consecutiveLossLimit s.consecutiveLosses) now
  else if s.tradesExecuted ≥ Config.maxDailyTrades then
    s.halt (.maxDailyTrades s.tradesExecuted) now
  else
    match Config.drawdownThresholds.find? (fun t => t.sizeMultiplier == 0) with
    | some t =>
        if s.currentDrawdown ≥ t.drawdown then s.halt (.maxDrawdownReached s.currentDrawdown) now
        else s
    | none => s

/-- A completed trade as consumed by `SessionState.recordTrade`: the source
reads `trade.won`, `trade.strategyName` and `trade.pnl`, the latter guarded
through `|| 0` and a truthiness check, so an absent pnl behaves as 0. -/
structure TradeOutcome where
  won : Bool
  strategyName : String
  pnl : ℚ
  deriving Repr, DecidableEq

/-- Model of `SessionState.recordTrade(trade)` at clock `now`: bump trade and streak
counters, per-strategy stats and the balance, then check halt conditions. -/
def SessionState.recordTrade (s : SessionState) (trade : TradeOutcome) (now : ℚ) : SessionState :=
  let s1 := { s with
    tradesExecuted := s.tradesExecuted + 1
    tradesWon := if trade.won then s.tradesWon + 1 else s.tradesWon
    tradesLost := if trade.won then s.tradesLost else s.tradesLost + 1
    consecutiveWins := if trade.won then s.consecutiveWins + 1 else 0
    consecutiveLosses := if trade.won then 0 else s.consecutiveLosses + 1 }
  let stratStats : List (String × Aggregator.LivePerf) :=
    match s1.strategyStats.find? (fun kv => kv.1 == trade.strategyName) with
    | none =>
        s1.strategyStats ++
          [(trade.strategyName,
            { trades := 1
              wins := if trade.won then 1 else 0
              losses := if trade.won then 0 else 1
              pnl := trade.pnl })]
    | some _ =>
        s1.strategyStats.map (fun kv =>
          if kv.1 == trade.strategyName then
            (kv.1,
              { trades := kv.2.trades + 1
                wins := if trade.won then kv.2.wins + 1 else kv.2.wins
                losses := if trade.won then kv.2.losses else kv.2.losses + 1
                pnl := kv.2.pnl + trade.pnl })
          else kv)
  let s2 := { s1 with strategyStats := stratStats }
  let s3 := if trade.pnl ≠ 0 then s2.updateBalance trade.pnl else s2
  s3.checkHaltConditions now

/-- Model of `SessionState.canTrade()` at clock `now`.  Returns the possibly-updated
state and the verdict: a halt clears (resetting the loss streak) only when
the cooldown has elapsed since a truthy `haltTime` and the stored reason
passes `includes('Consecutive')`. -/
def SessionState.canTrade (s : SessionState) (now : ℚ) : SessionState × Bool :=
  if s.tradingHalted = false then (s, true)
  else
    match s.haltTime with
    | some t =>
      if t ≠ 0 ∧ now - t ≥ Config.cooldownAfterHalt then
        match s.haltReason with
        | some r =>
          if r.includesConsecutive then
            ({ s with tradingHalted := false, haltReason := none, haltTime := none
                      consecutiveLosses := 0 }, true)
          else (s, false)
        | none => (s, false)
      else (s, false)
    | none => (s, false)

end Session

/-! ### RiskManager (src/allDayTrader/riskManager.js)

The manager reads `balance` and `currentDrawdown` from its session state;
they are passed here as explicit arguments. -/

namespace Risk

/-- Model of `RiskManager.getDrawdownMultiplier()`: first ladder entry (in config
order) whose drawdown bound the current drawdown reaches, else 1. -/
def getDrawdownMultiplier (currentDrawdown : ℚ) : ℚ :=
  if Config.drawdownScalingEnabled = false then 1
  else
    match Config.drawdownThresholds.find? (fun t => currentDrawdown ≥ t.drawdown) with
    | some t => t.sizeMultiplier
    | none => 1

/-- Model of `RiskManager.getCorrelationMultiplier(signal, currentPositions)`. -/
def getCorrelationMultiplier (signalSide : Side) (currentPositions : List Position) : ℚ :=
  if (currentPositions.filter (fun p => p.side == signalSide)).length > 0 then
    1 - Config.correlationPenalty
  else 1

/-- Result of `checkExposureLimits`. -/
structure ExposureCheck where
  allowed : Bool
  maxAllowed : ℚ
  reason : Option String
  deriving Repr, DecidableEq

/-- Model of `RiskManager.checkExposureLimits(proposedSize, currentPositions)`. -/
def checkExposureLimits (balance proposedSize : ℚ) (currentPositions : List Position) :
    ExposureCheck :=
  let currentExposure := totalExposure currentPositions
  let maxTotal := balance * Config.maxTotalExposure
  let availableExposure := maxTotal - currentExposure
  if proposedSize > availableExposure then
    { allowed := false, maxAllowed := availableExposure, reason := some "max_total_exposure" }
  else
    let maxSingle := balance * Config.maxSinglePosition
    if proposedSize > maxSingle then
      { allowed := false, maxAllowed := maxSingle, reason := some "max_single_position" }
    else
      { allowed := true, maxAllowed := min availableExposure maxSingle, reason := none }

/-- Model of `RiskManager.adjustPositionSize(baseSize, signal, currentPositions)`:
drawdown multiplier, correlation penalty, exposure clamp, then min/max bet
clamps; the trailing `< minBetSize` test sits after the `max` with
`minBetSize` in the source and is therefore never taken. -/
def adjustPositionSize (balance currentDrawdown baseSize : ℚ) (signalSide : Side)
    (currentPositions : List Position) : ℚ :=
  let a1 := baseSize * getDrawdownMultiplier currentDrawdown
  let a2 := a1 * getCorrelationMultiplier signalSide currentPositions
  let check := checkExposureLimits balance a2 currentPositions
  let a3 := if check.allowed = false then max 0 check.maxAllowed else a2
  let a4 := max Config.minBetSize a3
  let a5 := min Config.maxBetSize a4
  if a5 < Config.minBetSize then 0 else roundCents a5

end Risk

/-! ### PaperTradingOrchestrator (paper-trading orchestrator source file)

Only the decision logic the claims concern is modelled: the per-strategy
entry guard of `runStrategies` (everything from the duplicate-position check
to the `openPosition` call, for one strategy that produced a signal) and the
outcome rule of `resolveMarket`. -/

namespace Orchestrator

/-- What happened to one strategy's signal inside `runStrategies`. -/
inductive EntryOutcome where
  | skippedExisting
  | skippedSmallSize
  | opened (ok : OpenOk)
  | rejected (err : String)
  deriving Repr, DecidableEq

/-- Entry path of `PaperTradingOrchestrator.runStrategies` for one strategy
with a signal in hand: skip if this strategy already holds a position in the
current market, otherwise size the bet, skip sub-dollar sizes, compute the
entry price from the side's market price and call `openPosition`. -/
def runStrategyEntry (e : Engine) (strategyName : String) (signalSide : Side)
    (signalConfidence : ℚ) (marketId marketSlug : String) (yesPrice noPrice : ℚ)
    (remainingMinutes now : ℚ) : Engine × EntryOutcome :=
  match e.positions.find? (fun p => p.strategyName == strategyName && p.marketId == marketId) with
  | some _ => (e, .skippedExisting)
  | none =>
    let bet := e.calculateBetSize signalConfidence strategyName
    if bet.betSize < 1 then (e, .skippedSmallSize)
    else
      let marketPrice := if signalSide == Side.UP then yesPrice else noPrice
      let entryPrice :=
        Engine.calculateEntryPrice marketPrice signalSide signalConfidence remainingMinutes
      let r := e.openPosition
        { strategyName := strategyName, side := signalSide, entryPrice := entryPrice
          size := bet.betSize, confidence := signalConfidence, marketId := marketId
          marketSlug := marketSlug, remainingMinutes := remainingMinutes, timestamp := now }
      match r.2 with
      | .ok ok => (r.1, .opened ok)
      | .error err => (r.1, .rejected err)

/-- Outcome rule of `PaperTradingOrchestrator.resolveMarket`:
`endPrice > priceAtStart ? 'UP' : 'DOWN'`. -/
def resolveOutcome (endPrice priceAtStart : ℚ) : Side :=
  if endPrice > priceAtStart then Side.UP else Side.DOWN

/-- Settlement close of `resolveMarket`: close every position of the market
against the outcome at settlement price 1 for UP, 0 for DOWN. -/
def resolveMarketClose (e : Engine) (marketId : String) (priceAtStart endPrice timestamp : ℚ) :
    Engine × List (Except String CloseOk) :=
  let outcome := resolveOutcome endPrice priceAtStart
  e.closeAllForMarket marketId outcome (if outcome = Side.UP then 1 else 0) timestamp

end Orchestrator

/-! ## Theorems

### Balance identity (C1) -/

/-- The ledger invariant: the engine was created with initial balance `B0`
and its balance is `B0` plus the sum of the pnl of all closed-trade records. -/
def balanceInvariant (B0 : ℚ) (e : Engine) : Prop :=
  e.initialBalance = B0 ∧ e.balance = B0 + sumPnl e.closedTrades

theorem sumPnl_append (l : List ClosedEntry) (x : ClosedEntry) :
    sumPnl (l ++ [x]) = sumPnl l + x.pnl := by
  simp [sumPnl]

theorem balanceInvariant_openPosition (B0 : ℚ) (e : Engine) (p : OpenParams)
    (h : balanceInvariant B0 e) : balanceInvariant B0 (e.openPosition p).1 := by
  unfold Engine.openPosition
  split
  · exact h
  · split
    · exact h
    · exact h

theorem balanceInvariant_closePosition (B0 : ℚ) (e : Engine) (tradeId : Nat) (outcome : Side)
    (exitPrice ts : ℚ) (h : balanceInvariant B0 e) :
    balanceInvariant B0 (e.closePosition tradeId outcome exitPrice ts).1 := by
  unfold Engine.closePosition
  split
  · exact h
  · refine ⟨h.1, ?_⟩
    simp only [sumPnl_append, ClosedEntry.pnl]
    rw [h.2]
    ring

theorem balanceInvariant_closeMany (B0 : ℚ) (ps : List Position) (outcome : Side)
    (exitPrice ts : ℚ) (e : Engine) (h : balanceInvariant B0 e) :
    balanceInvariant B0 (e.closeMany ps outcome exitPrice ts).1 := by
  induction ps generalizing e with
  | nil => exact h
  | cons p rest ih =>
      exact ih _ (balanceInvariant_closePosition B0 e p.tradeId outcome exitPrice ts h)

theorem balanceInvariant_closeAllForMarket (B0 : ℚ) (e : Engine) (marketId : String)
    (outcome : Side) (exitPrice ts : ℚ) (h : balanceInvariant B0 e) :
    balanceInvariant B0 (e.closeAllForMarket marketId outcome exitPrice ts).1 :=
  balanceInvariant_closeMany B0 _ outcome exitPrice ts e h

theorem balanceInvariant_closePositionEarly (B0 : ℚ) (e : Engine) (tradeId : Nat)
    (price : ℚ) (reason : String) (ts : ℚ) (h : balanceInvariant B0 e) :
    balanceInvariant B0 (e.closePositionEarly tradeId price reason ts).1 := by
  unfold Engine.closePositionEarly
  split
  · exact h
  · refine ⟨h.1, ?_⟩
    simp only [sumPnl_append, ClosedEntry.pnl]
    rw [h.2]
    ring

theorem balanceInvariant_scaleOutPosition (B0 : ℚ) (e : Engine) (tradeId : Nat)
    (percentage price : ℚ) (reason : String) (ts : ℚ) (h : balanceInvariant B0 e) :
    balanceInvariant B0 (e.scaleOutPosition tradeId percentage price reason ts).1 := by
  unfold Engine.scaleOutPosition
  split
  · exact h
  · split
    · exact h
    · refine ⟨h.1, ?_⟩
      simp only [sumPnl_append, ClosedEntry.pnl]
      rw [h.2]
      ring

theorem balanceInvariant_applyOp (B0 : ℚ) (e : Engine) (op : EngineOp)
    (h : balanceInvariant B0 e) : balanceInvariant B0 (e.applyOp op) := by
  cases op with
  | openPos params => exact balanceInvariant_openPosition B0 e params h
  | closePos tradeId outcome exitPrice ts =>
      exact balanceInvariant_closePosition B0 e tradeId outcome exitPrice ts h
  | closeAll marketId outcome exitPrice ts =>
      exact balanceInvariant_closeAllForMarket B0 e marketId outcome exitPrice ts h
  | closeEarly tradeId price reason ts =>
      exact balanceInvariant_closePositionEarly B0 e tradeId price reason ts h
  | scaleOut tradeId percentage price reason ts =>
      exact balanceInvariant_scaleOutPosition B0 e tradeId percentage price reason ts h

theorem balanceInvariant_runOps (B0 : ℚ) (e : Engine) (ops : List EngineOp)
    (h : balanceInvariant B0 e) : balanceInvariant B0 (e.runOps ops) := by
  induction ops generalizing e with
  | nil => exact h
  | cons op rest ih => exact ih _ (balanceInvariant_applyOp B0 e op h)

/-- Claim C1: for every finite sequence of ledger operations (openPosition,
closePosition, closeAllForMarket, closePositionEarly, scaleOutPosition)
starting from a fresh engine with initial balance `B0`, after every operation
the engine balance equals `B0` plus the sum of the `pnl` fields of all
records appended to the closed-trades list so far.  (The statement quantifies
over all operation sequences, hence covers every observation point.) -/
theorem claim_C1_balance_identity (B0 minRisk maxRisk maxPos maxTot : ℚ)
    (ops : List EngineOp) :
    ((mkEngine B0 minRisk maxRisk maxPos maxTot).runOps ops).balance
      = B0 + sumPnl ((mkEngine B0 minRisk maxRisk maxPos maxTot).runOps ops).closedTrades := by
  have h0 : balanceInvariant B0 (mkEngine B0 minRisk maxRisk maxPos maxTot) := by
    constructor
    · rfl
    · simp [mkEngine, sumPnl]
  exact (balanceInvariant_runOps B0 _ ops h0).2

/-! ### P/L semantics (C2) and tie resolution (C10) -/

theorem closePosition_pnl_won (e : Engine) (tradeId : Nat) (p : Position) (outcome : Side)
    (exitPrice ts : ℚ) (h : e.positions.find? (fun q => q.tradeId == tradeId) = some p)
    (hside : p.side = outcome) :
    (e.closePosition tradeId outcome exitPrice ts).2.map CloseOk.pnl
      = Except.ok (p.size * ((1 / p.entryPrice) - 1)) := by
  cases ho : outcome <;> subst hside <;>
    simp [Engine.closePosition, h, ho, Except.map]

theorem closePosition_pnl_lost (e : Engine) (tradeId : Nat) (p : Position) (outcome : Side)
    (exitPrice ts : ℚ) (h : e.positions.find? (fun q => q.tradeId == tradeId) = some p)
    (hside : p.side ≠ outcome) :
    (e.closePosition tradeId outcome exitPrice ts).2.map CloseOk.pnl
      = Except.ok (-p.size) := by
  cases ho : outcome <;> cases hs : p.side <;> rw [ho, hs] at hside <;>
    simp [Engine.closePosition, h, ho, hs, Except.map] <;> simp at hside

theorem closePositionEarly_pnl (e : Engine) (tradeId : Nat) (p : Position)
    (price : ℚ) (reason : String) (ts : ℚ)
    (h : e.positions.find? (fun q => q.tradeId == tradeId) = some p) :
    (e.closePositionEarly tradeId price reason ts).2.map CloseOk.pnl
      = Except.ok ((price - p.entryPrice) * (p.size / p.entryPrice)) := by
  simp [Engine.closePositionEarly, h, Except.map]

/-- Claim C2: closing an open position at market resolution with a matching
outcome yields `pnl = size * (1/entryPrice - 1)`; with a non-matching outcome
`pnl = -size`; and closing it early at share price `price` yields
`pnl = (price - entryPrice) * (size / entryPrice)`. -/
theorem claim_C2_pnl_semantics (e : Engine) (tradeId : Nat) (p : Position) (outcome : Side)
    (exitPrice price : ℚ) (reason : String) (ts : ℚ)
    (h : e.positions.find? (fun q => q.tradeId == tradeId) = some p) :
    ((p.side = outcome →
        (e.closePosition tradeId outcome exitPrice ts).2.map CloseOk.pnl
          = Except.ok (p.size * ((1 / p.entryPrice) - 1)))
      ∧ (p.side ≠ outcome →
        (e.closePosition tradeId outcome exitPrice ts).2.map CloseOk.pnl
          = Except.ok (-p.size)))
    ∧ (e.closePositionEarly tradeId price reason ts).2.map CloseOk.pnl
        = Except.ok ((price - p.entryPrice) * (p.size / p.entryPrice)) :=
  ⟨⟨closePosition_pnl_won e tradeId p outcome exitPrice ts h,
    closePosition_pnl_lost e tradeId p outcome exitPrice ts h⟩,
   closePositionEarly_pnl e tradeId p price reason ts h⟩

/-- Demonstration engine: fresh engine at the source defaults holding one UP
position of size 100 opened at entry price 0.40 on market `m1`. -/
def demoEngineUp : Engine :=
  ((mkEngine 500 (2/100) (5/100) (15/100) (1/2)).openPosition
    { strategyName := "MOMENTUM", side := Side.UP, entryPrice := 2/5, size := 100
      confidence := 7/10, marketId := "m1", marketSlug := "btc-15m", remainingMinutes := 10
      timestamp := 0 }).1

/-- The open position held by `demoEngineUp`. -/
def demoPositionUp : Position :=
  { tradeId := 1, strategyName := "MOMENTUM", side := Side.UP, entryPrice := 2/5, size := 100
    confidence := 7/10, marketId := "m1", marketSlug := "btc-15m", remainingMinutes := 10
    openTime := 0, scaledOutPercent := 0 }

/-- Witness for C2: a winning UP position with entry 0.40 and size 100 pays
exactly 150; the losing shape loses exactly 100. -/
theorem claim_C2_pnl_semantics_witness :
    (demoEngineUp.closePosition 1 Side.UP 1 60).2.map CloseOk.pnl = Except.ok 150
    ∧ (demoEngineUp.closePosition 1 Side.DOWN 0 60).2.map CloseOk.pnl = Except.ok (-100) := by
  have hfind : demoEngineUp.positions.find? (fun q => q.tradeId == 1) = some demoPositionUp := by
    norm_num [demoEngineUp, demoPositionUp, mkEngine, Engine.openPosition,
      Engine.getAccountState, totalExposure, Stats.init]
  constructor
  · have hwin := (claim_C2_pnl_semantics demoEngineUp 1 demoPositionUp Side.UP 1 1 "X" 60
      hfind).1.1 rfl
    rw [hwin]
    norm_num [demoPositionUp]
  · have hlose := (claim_C2_pnl_semantics demoEngineUp 1 demoPositionUp Side.DOWN 0 1 "X" 60
      hfind).1.2 (by decide)
    rw [hlose]
    norm_num [demoPositionUp]

/-- Claim C10: the resolution outcome is UP exactly when the end price is
strictly greater than the recorded start price; an exact tie therefore
resolves DOWN, and under the tie outcome every UP position loses its full
stake while every DOWN position wins `size * (1/entryPrice - 1)`. -/
theorem claim_C10_tie_resolution (e : Engine) (tradeId : Nat) (p : Position)
    (startPrice exitPrice ts : ℚ)
    (h : e.positions.find? (fun q => q.tradeId == tradeId) = some p) :
    (∀ endP startP : ℚ, Orchestrator.resolveOutcome endP startP = Side.UP ↔ startP < endP)
    ∧ Orchestrator.resolveOutcome startPrice startPrice = Side.DOWN
    ∧ ((p.side = Side.UP →
        (e.closePosition tradeId (Orchestrator.resolveOutcome startPrice startPrice)
          exitPrice ts).2.map CloseOk.pnl = Except.ok (-p.size))
      ∧ (p.side = Side.DOWN →
        (e.closePosition tradeId (Orchestrator.resolveOutcome startPrice startPrice)
          exitPrice ts).2.map CloseOk.pnl
            = Except.ok (p.size * ((1 / p.entryPrice) - 1)))) := by
  have htie : Orchestrator.resolveOutcome startPrice startPrice = Side.DOWN := by
    simp [Orchestrator.resolveOutcome]
  refine ⟨?_, htie, ?_, ?_⟩
  · intro endP startP
    unfold Orchestrator.resolveOutcome
    rcases lt_or_ge startP endP with hlt | hge
    · rw [if_pos hlt]
      simp [hlt]
    · rw [if_neg (not_lt.mpr hge)]
      constructor
      · intro hc
        exact absurd hc (by decide)
      · intro hlt2
        exact absurd hlt2 (not_lt.mpr hge)
  · intro hup
    rw [htie]
    exact closePosition_pnl_lost e tradeId p Side.DOWN exitPrice ts h (by rw [hup]; decide)
  · intro hdown
    rw [htie]
    exact closePosition_pnl_won e tradeId p Side.DOWN exitPrice ts h hdown

/-- Demonstration engine holding the UP position of `demoEngineUp` plus a
DOWN position of size 100 at entry 0.40 from a second strategy on the same
market. -/
def demoEngineUpDown : Engine :=
  (demoEngineUp.openPosition
    { strategyName := "RSI", side := Side.DOWN, entryPrice := 2/5, size := 100
      confidence := 6/10, marketId := "m1", marketSlug := "btc-15m", remainingMinutes := 10
      timestamp := 0 }).1

/-- Witness for C10: on an exact tie the outcome is DOWN; closing the demo UP
position under it loses the full 100 stake, and settling the whole market
with `closeAllForMarket` makes the UP position lose 100 and the DOWN position
win 150. -/
theorem claim_C10_tie_resolution_witness :
    Orchestrator.resolveOutcome 100000 100000 = Side.DOWN
    ∧ (demoEngineUp.closePosition 1 (Orchestrator.resolveOutcome 100000 100000) 0 60).2.map
        CloseOk.pnl = Except.ok (-100)
    ∧ (Orchestrator.resolveMarketClose demoEngineUpDown "m1" 100000 100000 60).2.map
        (Except.map CloseOk.pnl) = [Except.ok (-100), Except.ok 150] := by
  have hfind : demoEngineUp.positions.find? (fun q => q.tradeId == 1) = some demoPositionUp := by
    norm_num [demoEngineUp, demoPositionUp, mkEngine, Engine.openPosition,
      Engine.getAccountState, totalExposure, Stats.init]
  have h := claim_C10_tie_resolution demoEngineUp 1 demoPositionUp 100000 0 60 hfind
  refine ⟨h.2.1, ?_, ?_⟩
  · have hup := h.2.2.1 rfl
    rw [hup]
    norm_num [demoPositionUp]
  · norm_num [Orchestrator.resolveMarketClose, Orchestrator.resolveOutcome,
      Engine.closeAllForMarket, Engine.closeMany, Engine.closePosition, demoEngineUpDown,
      demoEngineUp, mkEngine, Engine.openPosition, Engine.getAccountState, totalExposure,
      Stats.init, Stats.trackDrawdown, Stats.applyCloseStats, Stats.recordStrategyClose,
      Stats.updateStrategy, StratStats.empty, Stats.findStrategy, Except.map, List.filter,
      List.eraseP, List.find?]
    decide

/-! ### Single position per market per strategy (C3) -/

/-- Claim C3: whenever some position for `(strategyName, marketId)` is open,
the orchestrator entry path for that strategy and market skips before sizing
or opening anything: the engine is returned unchanged (in particular no
second position is created) with the skip outcome. -/
theorem claim_C3_single_position (e : Engine) (strategyName marketId : String) (p : Position)
    (hmem : p ∈ e.positions) (hs : p.strategyName = strategyName) (hm : p.marketId = marketId)
    (side : Side) (conf : ℚ) (marketSlug : String) (yesPrice noPrice remainingMinutes now : ℚ) :
    Orchestrator.runStrategyEntry e strategyName side conf marketId marketSlug
        yesPrice noPrice remainingMinutes now
      = (e, Orchestrator.EntryOutcome.skippedExisting) := by
  cases hfind : e.positions.find? (fun q => q.strategyName == strategyName && q.marketId == marketId) with
  | none =>
      exfalso
      have hnone := List.find?_eq_none.mp hfind p hmem
      apply hnone
      simp [hs, hm]
  | some q =>
      simp [Orchestrator.runStrategyEntry, hfind]

/-- Witness for C3: with the demo UP position open for MOMENTUM on market
`m1`, a second MOMENTUM attempt on `m1` is skipped and changes nothing. -/
theorem claim_C3_single_position_witness :
    Orchestrator.runStrategyEntry demoEngineUp "MOMENTUM" Side.DOWN (8/10) "m1" "btc-15m"
        (1/2) (1/2) 10 30
      = (demoEngineUp, Orchestrator.EntryOutcome.skippedExisting) := by
  have hmem : demoPositionUp ∈ demoEngineUp.positions := by
    norm_num [demoEngineUp, demoPositionUp, mkEngine, Engine.openPosition,
      Engine.getAccountState, totalExposure, Stats.init]
  exact claim_C3_single_position demoEngineUp "MOMENTUM" "m1" demoPositionUp hmem rfl rfl
    Side.DOWN (8/10) "btc-15m" (1/2) (1/2) 10 30

/-! ### Conflict gate (C4) -/

theorem upMass_nil : Aggregator.upMass [] = 0 := rfl

@[simp] theorem side_beq_up_up : (Side.UP == Side.UP) = true := rfl

@[simp] theorem side_beq_up_down : (Side.UP == Side.DOWN) = false := rfl

@[simp] theorem side_beq_down_up : (Side.DOWN == Side.UP) = false := rfl

@[simp] theorem side_beq_down_down : (Side.DOWN == Side.DOWN) = true := rfl

/-- Claim C4: whenever the weighted masses of the two sides are equal and
positive (a perfect split, e.g. one UP and one DOWN signal of equal
confidence and weight, for any common confidence magnitude), the aggregator
computes `conflictLevel = 1` and returns `NO_TRADE`; moreover whenever the
total mass is nonzero the computed conflict level is
`2 * min(massRatio_UP, massRatio_DOWN)`. -/
theorem claim_C4_conflict_gate (signals : List Aggregator.Signal) (regime : String)
    (heq : Aggregator.upMass signals = Aggregator.downMass signals)
    (hpos : 0 < Aggregator.upMass signals) :
    (Aggregator.detectConflicts signals).conflictLevel = 1
    ∧ (Aggregator.aggregateSignals signals regime).action = Aggregator.Action.NO_TRADE
    ∧ (∀ sigs : List Aggregator.Signal,
        Aggregator.upMass sigs + Aggregator.downMass sigs ≠ 0 →
        (Aggregator.detectConflicts sigs).conflictLevel
          = 2 * min (Aggregator.detectConflicts sigs).upRatio
              (Aggregator.detectConflicts sigs).downRatio) := by
  have hne : Aggregator.upMass signals + Aggregator.downMass signals ≠ 0 := by
    rw [← heq]
    intro h0
    linarith
  have hlevel : (Aggregator.detectConflicts signals).conflictLevel = 1 := by
    unfold Aggregator.detectConflicts
    rw [if_neg hne]
    simp only [← heq, min_self]
    field_simp
    ring
  refine ⟨hlevel, ?_, ?_⟩
  · have hnil : signals ≠ [] := by
      intro hcontra
      rw [hcontra, upMass_nil] at hpos
      exact lt_irrefl 0 hpos
    have hlen : signals.length ≠ 0 := fun hc => hnil (List.length_eq_zero.mp hc)
    have hlen2 : ¬ signals.length < Config.minStrategiesToTrade := by
      show ¬ signals.length < 1
      omega
    have hconf : (Aggregator.detectConflicts signals).conflictLevel > Config.conflictThreshold := by
      rw [hlevel]
      norm_num [Config.conflictThreshold]
    unfold Aggregator.aggregateSignals
    rw [if_neg hlen, if_neg hlen2, if_pos hconf]
  · intro sigs hne2
    unfold Aggregator.detectConflicts
    rw [if_neg hne2]
    ring_nf

/-- Witness for C4: the signal pair UP at confidence 0.9 weight 1 versus DOWN
at confidence 0.9 weight 1 gives conflict level 1 and NO_TRADE. -/
theorem claim_C4_conflict_gate_witness :
    (Aggregator.detectConflicts
        [{ strategyName := "MOMENTUM", side := Side.UP, confidence := 9/10, weight := 1
           liveWinRate := 1/2, regimeBoost := 0 },
         { strategyName := "RSI", side := Side.DOWN, confidence := 9/10, weight := 1
           liveWinRate := 1/2, regimeBoost := 0 }]).conflictLevel = 1
    ∧ (Aggregator.aggregateSignals
        [{ strategyName := "MOMENTUM", side := Side.UP, confidence := 9/10, weight := 1
           liveWinRate := 1/2, regimeBoost := 0 },
         { strategyName := "RSI", side := Side.DOWN, confidence := 9/10, weight := 1
           liveWinRate := 1/2, regimeBoost := 0 }]
        "TREND_UP").action = Aggregator.Action.NO_TRADE := by
  have h := claim_C4_conflict_gate
    [{ strategyName := "MOMENTUM", side := Side.UP, confidence := 9/10, weight := 1
       liveWinRate := 1/2, regimeBoost := 0 },
     { strategyName := "RSI", side := Side.DOWN, confidence := 9/10, weight := 1
       liveWinRate := 1/2, regimeBoost := 0 }]
    "TREND_UP"
    (by norm_num [Aggregator.upMass, Aggregator.downMass, List.filter])
    (by norm_num [Aggregator.upMass, List.filter])
  exact ⟨h.1, h.2.1⟩

/-! ### Halt-reset asymmetry (C9) -/

/-- Claim C9: while trading is halted, `canTrade` can only ever flip back to
true when the stored halt reason passes the `Consecutive` test, and then only
once the cooldown has elapsed since the halt time, in which case the halt is
cleared and the loss streak reset.  For any reason failing that test — in
particular the daily-loss and max-drawdown reasons — `canTrade` returns false
and leaves the state completely unchanged at every clock value, so within a
session only an explicit `reset` (which clears the halt flag) can make
trading possible again. -/
theorem claim_C9_halt_reset_asymmetry (s : Session.SessionState) (now : ℚ)
    (hhalt : s.tradingHalted = true) :
    ((∀ r, s.haltReason = some r → r.includesConsecutive = false) →
        s.canTrade now = (s, false))
    ∧ (∀ (n : Nat) (t : ℚ),
        s.haltReason = some (Session.HaltReason.consecutiveLossLimit n) →
        s.haltTime = some t → t ≠ 0 →
        ((s.canTrade now).2 = true ↔ Config.cooldownAfterHalt ≤ now - t)
        ∧ (Config.cooldownAfterHalt ≤ now - t →
            (s.canTrade now).1.tradingHalted = false
            ∧ (s.canTrade now).1.consecutiveLosses = 0))
    ∧ (∀ q : ℚ, (Session.HaltReason.dailyLossLimit q).includesConsecutive = false
        ∧ (Session.HaltReason.maxDrawdownReached q).includesConsecutive = false)
    ∧ (∀ (s2 : Session.SessionState) (now2 : ℚ), (s2.reset now2).tradingHalted = false) := by
  refine ⟨?_, ?_, fun q => ⟨rfl, rfl⟩, fun s2 now2 => rfl⟩
  · intro hreason
    unfold Session.SessionState.canTrade
    rw [hhalt, if_neg (by simp)]
    cases hht : s.haltTime with
    | none => rfl
    | some t =>
      dsimp only
      by_cases hcond : t ≠ 0 ∧ now - t ≥ Config.cooldownAfterHalt
      · rw [if_pos hcond]
        cases hhr : s.haltReason with
        | none => rfl
        | some r =>
          dsimp only
          rw [hreason r hhr]
          rfl
      · rw [if_neg hcond]
  · intro n t hreason htime ht0
    unfold Session.SessionState.canTrade
    rw [hhalt, if_neg (by simp), htime, hreason]
    dsimp only [Session.HaltReason.includesConsecutive]
    by_cases hcool : Config.cooldownAfterHalt ≤ now - t
    · rw [if_pos (show t ≠ 0 ∧ now - t ≥ Config.cooldownAfterHalt from ⟨ht0, hcool⟩)]
      exact ⟨⟨fun _ => hcool, fun _ => rfl⟩, fun _ => ⟨rfl, rfl⟩⟩
    · rw [if_neg (fun hc => hcool hc.2)]
      exact ⟨⟨fun h => absurd h (by simp), fun hc => absurd hc hcool⟩,
        fun hc => absurd hc hcool⟩

/-- Demonstration halted states: one halted by the daily-loss limit, one by
the consecutive-loss limit, both at halt time 1000. -/
def demoHaltedDaily : Session.SessionState :=
  (((Session.SessionState.reset
      { initialBalance := 500, sessionStart := 0, balance := 500, peakBalance := 500
        dailyPnL := 0, realizedPnL := 0, unrealizedPnL := 0, maxDrawdown := 0
        currentDrawdown := 0, tradesExecuted := 0, tradesWon := 0, tradesLost := 0
        consecutiveLosses := 0, consecutiveWins := 0, tradingHalted := false
        haltReason := none, haltTime := none, strategyStats := [] } 0)).halt
    (Session.HaltReason.dailyLossLimit (12/100)) 1000)

/-- The same state halted by the consecutive-loss breaker instead. -/
def demoHaltedConsecutive : Session.SessionState :=
  (((Session.SessionState.reset
      { initialBalance := 500, sessionStart := 0, balance := 500, peakBalance := 500
        dailyPnL := 0, realizedPnL := 0, unrealizedPnL := 0, maxDrawdown := 0
        currentDrawdown := 0, tradesExecuted := 0, tradesWon := 0, tradesLost := 0
        consecutiveLosses := 5, consecutiveWins := 0, tradingHalted := false
        haltReason := none, haltTime := none, strategyStats := [] } 0)).halt
    (Session.HaltReason.consecutiveLossLimit 5) 1000)

/-- Witness for C9: the daily-loss halt stays halted even far past the
cooldown, while the consecutive-loss halt clears exactly when the cooldown
has elapsed (and not a moment before). -/
theorem claim_C9_halt_reset_asymmetry_witness :
    demoHaltedDaily.canTrade (1000 + 30 * 60 * 1000) = (demoHaltedDaily, false)
    ∧ (demoHaltedConsecutive.canTrade (1000 + 30 * 60 * 1000)).2 = true
    ∧ (demoHaltedConsecutive.canTrade (1000 + 30 * 60 * 1000)).1.tradingHalted = false
    ∧ (demoHaltedConsecutive.canTrade (1000 + 30 * 60 * 1000 - 1)).2 = false := by
  have hdaily := (claim_C9_halt_reset_asymmetry demoHaltedDaily (1000 + 30 * 60 * 1000) rfl).1
    (by
      intro r hr
      cases hr
      rfl)
  have hcons := (claim_C9_halt_reset_asymmetry demoHaltedConsecutive
      (1000 + 30 * 60 * 1000) rfl).2.1 5 1000 rfl rfl (by norm_num)
  have hcons2 := (claim_C9_halt_reset_asymmetry demoHaltedConsecutive
      (1000 + 30 * 60 * 1000 - 1) rfl).2.1 5 1000 rfl rfl (by norm_num)
  have hcool : Config.cooldownAfterHalt ≤ (1000 + 30 * 60 * 1000 : ℚ) - 1000 := by
    norm_num [Config.cooldownAfterHalt]
  refine ⟨hdaily, hcons.1.mpr hcool, (hcons.2 hcool).1, ?_⟩
  by_cases hres : (demoHaltedConsecutive.canTrade (1000 + 30 * 60 * 1000 - 1)).2 = true
  · have := hcons2.1.mp hres
    norm_num [Config.cooldownAfterHalt] at this
  · simpa using hres

/-! ### Scale-out fraction invariant (C6) -/

/-- Demonstration engine after scaling the demo UP position out twice by 60%
each time at share price 0.50. -/
def demoScaleTwice : Engine :=
  ((demoEngineUp.scaleOutPosition 1 (3/5) (1/2) "SCALE_OUT" 10).1.scaleOutPosition
    1 (3/5) (1/2) "SCALE_OUT" 20).1

/-- Counterexample to C6 as stated: after two successful 60% scale-outs the
position's `scaledOutPercent` is 1.2, outside `[0,1]`, and although it has
passed 1 the position is still in the open list with status OPEN — the
engine neither clamps the cumulative fraction nor closes the position. -/
theorem claim_C6_counterexample :
    demoScaleTwice.positions.map Position.scaledOutPercent = [6/5]
    ∧ ¬ ((6 : ℚ)/5 ≤ 1)
    ∧ demoScaleTwice.positions.map Position.status = ["OPEN"]
    ∧ demoScaleTwice.positions.length = 1 := by
  refine ⟨?_, by norm_num, ?_, ?_⟩ <;>
    norm_num [demoScaleTwice, demoEngineUp, mkEngine, Engine.openPosition,
      Engine.getAccountState, totalExposure, Stats.init, Engine.scaleOutPosition,
      Stats.trackDrawdown, Stats.updateStrategy, StratStats.empty, List.find?]

/-- Claim C6 amended: a successful scale-out requires a fraction in `(0,1]`
and `scaledOutPercent` is monotonically non-decreasing (each open position
maps to one with the same trade id and an unchanged status and a
`scaledOutPercent` at least as large), but the cumulative value is not
clamped to `[0,1]` and reaching 1 does not force CLOSED: `scaleOutPosition`
never removes a position and never changes a status. -/
theorem claim_C6_scale_out_amended (e : Engine) (tradeId : Nat) (percentage price : ℚ)
    (reason : String) (ts : ℚ) :
    ((e.scaleOutPosition tradeId percentage price reason ts).1.positions.length
        = e.positions.length)
    ∧ (∀ r, (e.scaleOutPosition tradeId percentage price reason ts).2 = Except.ok r →
        0 < percentage ∧ percentage ≤ 1)
    ∧ (∀ p ∈ e.positions,
        ∃ p2 ∈ (e.scaleOutPosition tradeId percentage price reason ts).1.positions,
          p2.tradeId = p.tradeId ∧ p2.status = p.status
          ∧ p.scaledOutPercent ≤ p2.scaledOutPercent) := by
  unfold Engine.scaleOutPosition
  cases hfind : e.positions.find? (fun p => p.tradeId == tradeId) with
  | none =>
      dsimp only
      refine ⟨rfl, ?_, ?_⟩
      · intro r hr
        simp at hr
      · intro p hp
        exact ⟨p, hp, rfl, rfl, le_refl _⟩
  | some pos =>
      dsimp only
      by_cases hbad : percentage ≤ 0 ∨ percentage > 1
      · rw [if_pos hbad]
        refine ⟨rfl, ?_, ?_⟩
        · intro r hr
          simp at hr
        · intro p hp
          exact ⟨p, hp, rfl, rfl, le_refl _⟩
      · rw [if_neg hbad]
        push_neg at hbad
        refine ⟨by simp, fun r _ => ⟨hbad.1, hbad.2⟩, ?_⟩
        intro p hp
        refine ⟨if p.tradeId == tradeId then
            { p with size := pos.size - pos.size * percentage
                     scaledOutPercent := p.scaledOutPercent + percentage }
          else p, ?_, ?_, ?_, ?_⟩
        · exact List.mem_map_of_mem _ hp
        · split <;> rfl
        · split <;> rfl
        · split
          · exact le_add_of_nonneg_right (le_of_lt hbad.1)
          · exact le_refl _

/-- Witness for the amended C6: one 60% scale-out on the demo engine keeps
the position open with the same status and a larger `scaledOutPercent`, and
the success result certifies the fraction bounds. -/
theorem claim_C6_scale_out_amended_witness :
    (demoEngineUp.scaleOutPosition 1 (3/5) (1/2) "SCALE_OUT" 10).1.positions.length
        = demoEngineUp.positions.length
    ∧ (0 < (3:ℚ)/5 ∧ (3:ℚ)/5 ≤ 1)
    ∧ (∃ p2 ∈ (demoEngineUp.scaleOutPosition 1 (3/5) (1/2) "SCALE_OUT" 10).1.positions,
        p2.tradeId = demoPositionUp.tradeId ∧ p2.status = demoPositionUp.status
        ∧ demoPositionUp.scaledOutPercent ≤ p2.scaledOutPercent) := by
  have hmem : demoPositionUp ∈ demoEngineUp.positions := by
    norm_num [demoEngineUp, demoPositionUp, mkEngine, Engine.openPosition,
      Engine.getAccountState, totalExposure, Stats.init]
  have h := claim_C6_scale_out_amended demoEngineUp 1 (3/5) (1/2) "SCALE_OUT" 10
  exact ⟨h.1, by norm_num, h.2.2 demoPositionUp hmem⟩

/-! ### Weight bounds (C7) -/

theorem trackerWeight_bounds (h : Option PerformanceTracker.History) :
    Config.minWeight ≤ PerformanceTracker.getStrategyWeight h
    ∧ PerformanceTracker.getStrategyWeight h ≤ Config.maxWeight := by
  cases h with
  | none =>
      norm_num [PerformanceTracker.getStrategyWeight, Config.defaultWeight,
        Config.minWeight, Config.maxWeight]
  | some history =>
      unfold PerformanceTracker.getStrategyWeight
      dsimp only
      by_cases hlen : history.trades.length < Config.minTradesForWeighting
      · rw [if_pos hlen]
        norm_num [Config.defaultWeight, Config.minWeight, Config.maxWeight]
      · rw [if_neg hlen]
        constructor
        · exact le_max_left _ _
        · exact max_le (by norm_num [Config.minWeight, Config.maxWeight])
            (le_trans (min_le_left _ _) (le_refl _))

theorem trackerWeight_default_of_few (history : PerformanceTracker.History)
    (hlen : history.trades.length < Config.minTradesForWeighting) :
    PerformanceTracker.getStrategyWeight (some history) = Config.defaultWeight := by
  unfold PerformanceTracker.getStrategyWeight
  dsimp only
  rw [if_pos hlen]

/-- Counterexample to C7 as stated: the weight actually used by the signal
aggregator is `SignalAggregator.getStrategyWeight`, and for a strategy with
just 2 live trades (fewer than `minTradesForWeighting = 5`) and a 100% live
win rate it returns 2.0 — above the configured `maxWeight = 1.5` and not the
`defaultWeight = 1`. -/
theorem claim_C7_counterexample :
    Aggregator.AggState.getStrategyWeight
        { livePerformance := [("RSI", { trades := 2, wins := 2, losses := 0, pnl := 30 })]
          performanceTracker := none } "RSI" = 2
    ∧ ¬ ((2 : ℚ) ≤ Config.maxWeight)
    ∧ 2 < Config.minTradesForWeighting
    ∧ Aggregator.AggState.getStrategyWeight
        { livePerformance := [("RSI", { trades := 2, wins := 2, losses := 0, pnl := 30 })]
          performanceTracker := none } "RSI" ≠ Config.defaultWeight := by
  refine ⟨?_, ?_, ?_, ?_⟩ <;>
    norm_num [Aggregator.AggState.getStrategyWeight, Aggregator.AggState.livePerfOf,
      List.find?, Config.maxWeight, Config.minTradesForWeighting, Config.defaultWeight]

/-- Claim C7 amended: the PerformanceTracker weight does stay within the
configured `[minWeight, maxWeight]` bounds for every history and equals
`defaultWeight` below `minTradesForWeighting` samples (also with no history
at all); but the weight the aggregator uses overrides it as soon as a
strategy has at least 2 live trades, through a step table whose range is
`[0.1, 2]`, not the configured bounds. -/
theorem claim_C7_weight_bounds_amended :
    (∀ h : Option PerformanceTracker.History,
        Config.minWeight ≤ PerformanceTracker.getStrategyWeight h
        ∧ PerformanceTracker.getStrategyWeight h ≤ Config.maxWeight)
    ∧ PerformanceTracker.getStrategyWeight none = Config.defaultWeight
    ∧ (∀ history : PerformanceTracker.History,
        history.trades.length < Config.minTradesForWeighting →
        PerformanceTracker.getStrategyWeight (some history) = Config.defaultWeight)
    ∧ (∀ (a : Aggregator.AggState) (name : String),
        1/10 ≤ a.getStrategyWeight name ∧ a.getStrategyWeight name ≤ 2) := by
  refine ⟨trackerWeight_bounds, rfl, trackerWeight_default_of_few, ?_⟩
  intro a name
  have hdeleg : ∀ h : Option PerformanceTracker.History,
      1/10 ≤ PerformanceTracker.getStrategyWeight h
      ∧ PerformanceTracker.getStrategyWeight h ≤ 2 := by
    intro h
    have hb := trackerWeight_bounds h
    rw [Config.minWeight, Config.maxWeight] at hb
    exact ⟨by linarith [hb.1], by linarith [hb.2]⟩
  unfold Aggregator.AggState.getStrategyWeight
  cases hlp : a.livePerfOf name with
  | none =>
      cases hpt : a.performanceTracker with
      | none => norm_num [Config.defaultWeight]
      | some tracker => exact hdeleg _
  | some perf =>
      dsimp only
      by_cases hfew : perf.trades < 2
      · rw [if_pos hfew]
        cases hpt : a.performanceTracker with
        | none => norm_num [Config.defaultWeight]
        | some tracker => exact hdeleg _
      · rw [if_neg hfew]
        split_ifs <;> norm_num

/-- Witness for the amended C7: a 4-sample tracker history gets exactly the
default weight and bounded weights, and a live 2-for-2 aggregator state gets
a weight within the step-table range `[0.1, 2]`. -/
theorem claim_C7_weight_bounds_amended_witness :
    PerformanceTracker.getStrategyWeight
        (some { trades := [{ won := true, pnl := 10, regime := none, timestamp := 0 },
                           { won := true, pnl := 10, regime := none, timestamp := 1 },
                           { won := false, pnl := -5, regime := none, timestamp := 2 },
                           { won := true, pnl := 10, regime := none, timestamp := 3 }]
                totalTrades := 4, wins := 3, losses := 1, totalPnL := 25 })
      = Config.defaultWeight
    ∧ (1/10 ≤ Aggregator.AggState.getStrategyWeight
          { livePerformance := [("RSI", { trades := 2, wins := 2, losses := 0, pnl := 30 })]
            performanceTracker := none } "RSI"
       ∧ Aggregator.AggState.getStrategyWeight
          { livePerformance := [("RSI", { trades := 2, wins := 2, losses := 0, pnl := 30 })]
            performanceTracker := none } "RSI" ≤ 2) := by
  constructor
  · exact claim_C7_weight_bounds_amended.2.2.1 _ (by norm_num [Config.minTradesForWeighting])
  · exact claim_C7_weight_bounds_amended.2.2.2 _ "RSI"

/-! ### Position-size cap (C5) and sub-minimum size (C8) -/

theorem roundCents_between (x : ℚ) (h1 : 5 ≤ x) (h2 : x ≤ 50) :
    5 ≤ roundCents x ∧ roundCents x ≤ 50 := by
  unfold roundCents jsRound
  constructor
  · rw [le_div_iff₀ (by norm_num : (0:ℚ) < 100)]
    have h500 : (500 : ℤ) ≤ ⌊x * 100 + 1/2⌋ := by
      rw [Int.le_floor]
      push_cast
      linarith
    calc (5 : ℚ) * 100 = ((500 : ℤ) : ℚ) := by norm_num
    _ ≤ _ := by exact_mod_cast h500
  · rw [div_le_iff₀ (by norm_num : (0:ℚ) < 100)]
    have hlt : ⌊x * 100 + 1/2⌋ < 5001 := by
      rw [Int.floor_lt]
      push_cast
      linarith
    have hle : ⌊x * 100 + 1/2⌋ ≤ 5000 := by omega
    calc ((⌊x * 100 + 1/2⌋ : ℤ) : ℚ) ≤ ((5000 : ℤ) : ℚ) := by exact_mod_cast hle
    _ = 50 * 100 := by norm_num

theorem adjustFinal_between (a : ℚ) :
    Config.minBetSize ≤
      (if min Config.maxBetSize (max Config.minBetSize a) < Config.minBetSize then 0
       else roundCents (min Config.maxBetSize (max Config.minBetSize a)))
    ∧ (if min Config.maxBetSize (max Config.minBetSize a) < Config.minBetSize then 0
       else roundCents (min Config.maxBetSize (max Config.minBetSize a)))
      ≤ Config.maxBetSize := by
  have h1 : Config.minBetSize ≤ min Config.maxBetSize (max Config.minBetSize a) :=
    le_min (by norm_num [Config.minBetSize, Config.maxBetSize]) (le_max_left _ _)
  have h2 : min Config.maxBetSize (max Config.minBetSize a) ≤ Config.maxBetSize :=
    min_le_left _ _
  rw [if_neg (not_lt.mpr h1)]
  have hb := roundCents_between (min Config.maxBetSize (max Config.minBetSize a))
    h1 h2
  rw [Config.minBetSize, Config.maxBetSize]
  exact hb

/-- Demonstration engine at full exposure: balance 500 and one open DOWN
position of size 250, exactly 50% of the balance (the total-exposure cap). -/
def demoExposedEngine : Engine :=
  ((mkEngine 500 (2/100) (5/100) (15/100) (1/2)).openPosition
    { strategyName := "RSI", side := Side.DOWN, entryPrice := 1/2, size := 250
      confidence := 6/10, marketId := "m1", marketSlug := "btc-15m", remainingMinutes := 10
      timestamp := 0 }).1

/-- Counterexample to C5 as stated: with balance 500 and exposure already at
the 50% total-exposure cap (headroom 0), the sizing pipeline
(`calculateBetSize` then `adjustPositionSize`) still proposes 5 — the
`minBetSize` floor is applied after the exposure clamp — exceeding the
claimed bound `min(500 * maxSinglePosition, 500 * maxTotalExposure -
exposure) = 0`. -/
theorem claim_C5_counterexample :
    Risk.adjustPositionSize 500 0
        ((demoExposedEngine.calculateBetSize (7/10) "MOMENTUM").betSize)
        Side.UP demoExposedEngine.positions = 5
    ∧ min (500 * Config.maxSinglePosition)
        (500 * Config.maxTotalExposure - totalExposure demoExposedEngine.positions) = 0
    ∧ ¬ ((5 : ℚ) ≤ 0) := by
  refine ⟨?_, ?_, by norm_num⟩ <;>
    norm_num [Risk.adjustPositionSize, Risk.getDrawdownMultiplier,
      Risk.getCorrelationMultiplier, Risk.checkExposureLimits, Config.drawdownScalingEnabled,
      Config.drawdownThresholds, Config.correlationPenalty, Config.maxTotalExposure,
      Config.maxSinglePosition, Config.minBetSize, Config.maxBetSize,
      demoExposedEngine, mkEngine, Engine.openPosition, Engine.getAccountState,
      Engine.calculateBetSize, Stats.findStrategy, StratStats.empty, Stats.init,
      totalExposure, roundCents, jsRound, List.filter, List.find?]

/-- Claim C5 amended: the size proposed by `adjustPositionSize` always lies
between the configured `minBetSize` and `maxBetSize`; it does not in general
respect `balance * maxSinglePosition` or the remaining total-exposure
headroom, because the `minBetSize` floor is applied after the exposure
clamps (and a size clamped to the total-exposure headroom skips the
single-position check). -/
theorem claim_C5_position_size_cap_amended (balance currentDrawdown baseSize : ℚ)
    (side : Side) (positions : List Position) :
    Config.minBetSize ≤ Risk.adjustPositionSize balance currentDrawdown baseSize side positions
    ∧ Risk.adjustPositionSize balance currentDrawdown baseSize side positions
        ≤ Config.maxBetSize := by
  unfold Risk.adjustPositionSize
  exact adjustFinal_between _

/-- Claim C8 (stated behavior refuted at the failing input): with total
exposure already at the cap and a base size of 1, every clamp drives the
adjusted size to 0 — below the minimum viable bet — yet `adjustPositionSize`
returns `minBetSize = 5`, not the documented 0: the `Math.max(minBetSize, x)`
clamp runs before the `< minBetSize` test, so the return-0 branch is
unreachable. -/
theorem claim_C8_subminimum_returns_floor :
    Risk.adjustPositionSize 500 0 1 Side.UP demoExposedEngine.positions = 5
    ∧ Risk.adjustPositionSize 500 0 1 Side.UP demoExposedEngine.positions ≠ 0 := by
  have hval : Risk.adjustPositionSize 500 0 1 Side.UP demoExposedEngine.positions = 5 := by
    norm_num [Risk.adjustPositionSize, Risk.getDrawdownMultiplier,
      Risk.getCorrelationMultiplier, Risk.checkExposureLimits, Config.drawdownScalingEnabled,
      Config.drawdownThresholds, Config.correlationPenalty, Config.maxTotalExposure,
      Config.maxSinglePosition, Config.minBetSize, Config.maxBetSize,
      demoExposedEngine, mkEngine, Engine.openPosition, Engine.getAccountState,
      Stats.init, totalExposure, roundCents, jsRound, List.filter, List.find?]
  exact ⟨hval, by rw [hval]; norm_num⟩

end PM15
